import Mathlib

/-!
LibraryManagement: the REST handlers of `server.js` and the helpers of `script.js`.

A shallow embedding of the Express handlers of `server.js` (list, read-one,
create, update, delete, search and the route table) and of `escapeHtml` from
`script.js`.

* JavaScript strings are lists of characters (`Str`).
* JSON values of a request body are `JsValue`; numbers are `JsNumber`.  The
  handlers never compute with numbers, they only test them for truthiness and
  pass them on, so a finite number is carried as a rational.
* `Book = require('./models/Book')` is not among the sources.  The handlers
  are written over a `BookModel`, the operations of `Book` that `server.js`
  calls; `bookStore` is an instance modelled from the specification.
* `new RegExp(pattern, flags)` belongs to the language runtime; it is the
  parameter `RegExpEngine`.
-/

namespace LibraryManagement

/-- JavaScript strings, as lists of characters. -/
abbrev Str := List Char

/-! ## script.js -/

/-- The replacement table of `escapeHtml` (script.js:87):
`{'&':'&amp;','<':'&lt;','>':'&gt;','"':'&quot;',"'":'&#39;',"`":'&#96;'}`;
a character outside the class `[&<>"'`]` is not matched and stays. -/
def escapeChar (c : Char) : Str :=
  if c = '&' then "&amp;".toList
  else if c = '<' then "&lt;".toList
  else if c = '>' then "&gt;".toList
  else if c = '\x22' then "&quot;".toList
  else if c = '\x27' then "&#39;".toList
  else if c = '\x60' then "&#96;".toList
  else [c]

/-- The function `escapeHtml(text)` of script.js:85-88 on a string: `if (!text) return ''`
(the empty string is the only falsy string), else every match of
`/[&<>"'`]/g` is replaced by its entity. -/
def escapeHtml (text : Str) : Str :=
  if text = [] then [] else text.flatMap escapeChar

/-- The six entities `escapeHtml` can emit. -/
def htmlEntities : List Str :=
  ["&amp;".toList, "&lt;".toList, "&gt;".toList, "&quot;".toList, "&#39;".toList, "&#96;".toList]

/-- The characters `escapeHtml` replaces, `&` apart. -/
def htmlUnsafe : List Char := ['<', '>', '\x22', '\x27', '\x60']

/-! ## JavaScript values -/

/-- A JavaScript number: `NaN`, an infinity, or a finite value. -/
inductive JsNumber where
  | nan
  | inf (negative : Bool)
  | fin (q : ℚ)
  deriving DecidableEq

/-- A value of a parsed JSON body field, `undefined` standing for a field the
body does not have.  An array or object is carried as what `ToPrimitive`
makes of it, which is all `Number(...)` looks at: the string its `toString`
gives, or `none` when the conversion throws a TypeError, as it does for a
JSON object with an own property `toString`, for instance `{"toString": 1}`
(the inherited `valueOf` returns the object itself and the own `toString` is
not callable), and for an array that holds such an object. -/
inductive JsValue where
  | undefined
  | null
  | bool (b : Bool)
  | num (n : JsNumber)
  | str (s : Str)
  | object (prim : Option Str)
  deriving DecidableEq

/-- Truthiness of a number: `0` and `NaN` are falsy. -/
def JsNumber.truthy : JsNumber → Bool
  | .nan => false
  | .inf _ => true
  | .fin q => decide (q ≠ 0)

/-- Truthiness of a value (`ToBoolean`): `undefined`, `null`, `false`, `0`,
`NaN` and `''` are falsy, everything else is truthy. -/
def JsValue.truthy : JsValue → Bool
  | .undefined => false
  | .null => false
  | .bool b => b
  | .num n => n.truthy
  | .str s => decide (s ≠ [])
  | .object _ => true

/-- The call `Number(v)`: the number, or `none` when the call throws a
TypeError, which it does on an object that has no primitive value.  The
conversion of a string to a number (`StringToNumber`) is the runtime's and is
the parameter `strToNum`. -/
def Number (strToNum : Str → JsNumber) : JsValue → Option JsNumber
  | .undefined => some .nan
  | .null => some (.fin 0)
  | .bool b => some (if b then .fin 1 else .fin 0)
  | .num n => some n
  | .str s => some (strToNum s)
  | .object (some r) => some (strToNum r)
  | .object none => none

/-- A number that is an integer `>= 0`. -/
def JsNumber.isNonNegInt : JsNumber → Bool
  | .fin q => decide (q.den = 1 ∧ 0 ≤ q.num)
  | _ => false

/-- White space as `String.prototype.trim` and the class `\s` see it:
WhiteSpace and LineTerminator of ECMAScript. -/
def isJsSpace (c : Char) : Bool :=
  let n := c.toNat
  n = 0x09 || n = 0x0A || n = 0x0B || n = 0x0C || n = 0x0D || n = 0x20 || n = 0xA0 ||
  n = 0x1680 || (0x2000 ≤ n && n ≤ 0x200A) || n = 0x2028 || n = 0x2029 || n = 0x202F ||
  n = 0x205F || n = 0x3000 || n = 0xFEFF

/-- The method call `s.trim()`. -/
def trim (s : Str) : Str :=
  ((s.dropWhile isJsSpace).reverse.dropWhile isJsSpace).reverse

/-- The pieces of `s.split(/\s+/)`; `inRun` says the character before was
white space, so that a run of white space separates once. -/
def splitWsAux : Str → Bool → List Str
  | [], _ => [[]]
  | c :: cs, inRun =>
    if isJsSpace c then
      if inRun then splitWsAux cs true else [] :: splitWsAux cs true
    else
      match splitWsAux cs false with
      | [] => [[c]]
      | t :: ts => (c :: t) :: ts

/-- The method call `s.split(/\s+/)`: the pieces between the maximal runs of
white space; a run at either end leaves an empty piece there, and `''` gives
`['']`. -/
def splitWs (s : Str) : List Str :=
  splitWsAux s false

/-- The method call `parts.join(sep)`. -/
def join (sep : Char) (parts : List Str) : Str :=
  [sep].intercalate parts

/-- The pattern of the fallback (server.js:118 and 123):
`q.split(/\s+/).join('|')`. -/
def fallbackPattern (q : Str) : Str :=
  join '|' (splitWs q)

/-! ## The data model and the `Book` model -/

/-- A book document, with the fields of the create handler's object literal
(server.js:64-71) and the two the store assigns. -/
structure Book where
  id : Str
  title : Str
  author : Str
  genre : Option Str
  availableCopies : JsNumber
  isbn : Option Str
  publishedYear : Option JsNumber
  createdAt : Nat
  deriving DecidableEq

/-- The parsed JSON body of a request (`express.json()` leaves `{}` when there
is none), as the six fields the create handler reads (server.js:61) and the
schema knows; a field the body does not have is `undefined`. -/
structure Body where
  title : JsValue := .undefined
  author : JsValue := .undefined
  genre : JsValue := .undefined
  availableCopies : JsValue := .undefined
  isbn : JsValue := .undefined
  publishedYear : JsValue := .undefined
  deriving DecidableEq

/-- The object literal given to `new Book(...)` (server.js:64-71).
`publishedYear` is `none` where the literal has `undefined`. -/
structure BookInit where
  title : JsValue
  author : JsValue
  genre : JsValue
  availableCopies : JsNumber
  isbn : JsValue
  publishedYear : Option JsNumber
  deriving DecidableEq

/-- The kinds of error a store operation can throw (spec section 7). -/
inductive StoreError where
  | validation
  | invalidId
  | unexpected
  deriving DecidableEq

/-- A compiled regular expression, as its test on a string. -/
abbrev Matcher := Str → Bool

/-- The runtime's `new RegExp(pattern, flags)`: `none` when the constructor
throws a SyntaxError. -/
structure RegExpEngine where
  compile : Str → Str → Option Matcher

/-- The characters with a meaning of their own in a pattern (SyntaxCharacter
of ECMAScript): `^ $ \ . * + ? ( ) [ ] { } |`. -/
def isMeta (c : Char) : Bool :=
  c ∈ ['^', '$', '\\', '.', '*', '+', '?', '(', ')', '[', ']', '\x7b', '\x7d', '|']

/-- Whether `t` is a substring of `s` once both are case-folded by `fold`. -/
def ciInfix (fold : Char → Char) (t s : Str) : Bool :=
  decide (t.map fold <:+: s.map fold)

/-- What every regular-expression engine does with an alternation of literal
strings under the flag `i`: the pattern compiles, and it matches a string
exactly when one of the alternatives is a substring of it, letter case
(`fold`) apart. -/
def RegExpEngine.LiteralAlternation (E : RegExpEngine) (fold : Char → Char) : Prop :=
  ∀ alts : List Str, alts ≠ [] → (∀ t ∈ alts, ∀ c ∈ t, isMeta c = false) →
    ∃ rg, E.compile (join '|' alts) "i".toList = some rg ∧
      ∀ s, rg s = true ↔ ∃ t ∈ alts, ciInfix fold t s = true

/-- An engine for the literal fragment alone: a pattern whose pieces between
the `|` have no metacharacter is the alternation of those pieces, and a
pattern with any other metacharacter is rejected.  It agrees with the runtime
on the patterns the examples below use. -/
def literalEngine (fold : Char → Char) : RegExpEngine :=
  { compile := fun p _ =>
      if (p.splitOn '|').all (fun alt => alt.all fun c => !isMeta c) then
        some fun s => (p.splitOn '|').any fun alt => ciInfix fold alt s
      else none }

/-- The operations of `Book` (`require('./models/Book')`, not among the
sources) that `server.js` calls, over a store state `σ`.  An operation either
throws or returns; the three writing operations also return the next state. -/
structure BookModel (σ : Type) where
  /-- The call `Book.find().sort({ createdAt: -1 })` -/
  findAll : σ → Except StoreError (List Book)
  /-- The call `Book.findById(id)` -/
  findById : σ → Str → Except StoreError (Option Book)
  /-- The calls `new Book(init)` followed by `book.save()` -/
  save : σ → BookInit → Except StoreError (Book × σ)
  /-- The call `Book.findByIdAndUpdate(id, body, { new: true, runValidators: true })` -/
  findByIdAndUpdate : σ → Str → Body → Except StoreError (Option Book × σ)
  /-- The call `Book.findByIdAndDelete(id)` -/
  findByIdAndDelete : σ → Str → Except StoreError (Option Book × σ)
  /-- The call `Book.find({ $text: { $search: q } }, ...).sort(...).limit(200)` -/
  textSearch : σ → Str → Except StoreError (List Book)
  /-- The call `Book.find({ $or: [{ title: rg }, { author: rg }, { genre: rg }] }).limit(200)` -/
  regexFind : σ → Matcher → Except StoreError (List Book)

/-! ## The record store, from the specification -/

/-- Modelled from the spec: the state of the Record Store of section 4.1
(`models/Book` and its store are not among the sources): the records, newest
first, and the counter ids and creation stamps are drawn from. -/
structure Store where
  books : List Book
  next : Nat
  deriving DecidableEq

/-- The empty store. -/
def Store.empty : Store := { books := [], next := 0 }

/-- Modelled from the spec: the well-formed identifiers of the store
(`models/Book` and its store are not among the sources).  An identifier has 24
hexadecimal digits. -/
def wellFormedId (id : Str) : Bool :=
  id.length = 24 && id.all fun c => c.isDigit || ('a' ≤ c && c ≤ 'f') || ('A' ≤ c && c ≤ 'F')

/-- Modelled from the spec: the identifier the store generates for its n-th
record, "generated by store, immutable, unique". -/
def freshId (n : Nat) : Str :=
  let ds := Nat.toDigits 16 n
  List.replicate (24 - ds.length) '0' ++ ds

/-- Modelled from the spec: a text field of the schema (`models/Book` is not
among the sources).  An absent or null value leaves the field unset; a value
that is not text fails validation. -/
def castText : JsValue → Except StoreError (Option Str)
  | .undefined => .ok none
  | .null => .ok none
  | .str s => .ok (some s)
  | _ => .error .validation

/-- Modelled from the spec: a numeric field of the schema (`models/Book` is
not among the sources).  An absent or null value leaves the field unset; a value
that is not a number fails validation.  No bound is checked: "availableCopies
never negative (not enforced by clamping in source)". -/
def castNumber : JsValue → Except StoreError (Option JsNumber)
  | .undefined => .ok none
  | .null => .ok none
  | .num n => .ok (some n)
  | _ => .error .validation

/-- Modelled from the spec: a required text field, "required, non-empty". -/
def castRequired (v : JsValue) : Except StoreError Str :=
  match castText v with
  | .ok (some s) => if s = [] then .error .validation else .ok s
  | _ => .error .validation

/-- Modelled from the spec: `insert(book) -> id` of section 4.1 (`models/Book`
is not among the sources): "assigns id and createdAt; fails with
ValidationError if title or author missing". -/
def Store.insert (st : Store) (init : BookInit) : Except StoreError (Book × Store) := do
  let title ← castRequired init.title
  let author ← castRequired init.author
  let genre ← castText init.genre
  let isbn ← castText init.isbn
  let book : Book :=
    { id := freshId st.next
      title := title
      author := author
      genre := genre
      availableCopies := init.availableCopies
      isbn := isbn
      publishedYear := init.publishedYear
      createdAt := st.next }
  pure (book, { books := book :: st.books, next := st.next + 1 })

/-- Modelled from the spec: `getById(id) -> book` of section 4.1: the record,
nothing when the id is absent, InvalidId when it is malformed. -/
def Store.getById (st : Store) (id : Str) : Except StoreError (Option Book) :=
  if wellFormedId id then .ok (st.books.find? fun b => b.id = id)
  else .error .invalidId

/-- Modelled from the spec: the merge of `update(id, partialFields)`: "merges
provided fields into existing record, re-validates required fields after
merge". -/
def mergeFields (b : Book) (body : Body) : Except StoreError Book := do
  let title ← castText body.title
  let author ← castText body.author
  let genre ← castText body.genre
  let copies ← castNumber body.availableCopies
  let isbn ← castText body.isbn
  let year ← castNumber body.publishedYear
  let merged : Book :=
    { b with
      title := title.getD b.title
      author := author.getD b.author
      genre := genre.orElse fun _ => b.genre
      availableCopies := copies.getD b.availableCopies
      isbn := isbn.orElse fun _ => b.isbn
      publishedYear := year.orElse fun _ => b.publishedYear }
  if merged.title = [] || merged.author = [] then .error .validation else pure merged

/-- Modelled from the spec: `update(id, partialFields) -> book` of section
4.1. -/
def Store.update (st : Store) (id : Str) (body : Body) :
    Except StoreError (Option Book × Store) :=
  if wellFormedId id then
    match st.books.find? fun b => b.id = id with
    | none => .ok (none, st)
    | some b =>
      match mergeFields b body with
      | .error e => .error e
      | .ok merged =>
        .ok (some merged,
          { st with books := st.books.map fun x => if x.id = id then merged else x })
  else .error .invalidId

/-- Modelled from the spec: `delete(id) -> book` of section 4.1: "removes and
returns the deleted record". -/
def Store.delete (st : Store) (id : Str) : Except StoreError (Option Book × Store) :=
  if wellFormedId id then
    match st.books.find? fun b => b.id = id with
    | none => .ok (none, st)
    | some b => .ok (some b, { st with books := st.books.filter fun x => x.id ≠ id })
  else .error .invalidId

/-- The `$or` of server.js:119: the regular expression matches the title, the
author or the genre; an unset genre matches nothing. -/
def matchesAny (rg : Matcher) (b : Book) : Bool :=
  rg b.title || rg b.author || (b.genre.map rg).getD false

/-- Modelled from the spec: the fallback query on the store, step 4 of section
4.2: "records where title OR author OR genre matches the pattern, capped at
200", in the store's order. -/
def Store.regexFind (st : Store) (rg : Matcher) : List Book :=
  (st.books.filter (matchesAny rg)).take 200

/-- Modelled from the spec: the `Book` model (`models/Book`, not among the
sources) over the Record Store of section 4.1.  The full-text query of Tier 1
is the store engine's and is the parameter `text`. -/
def bookStore (text : Store → Str → Except StoreError (List Book)) : BookModel Store :=
  { findAll := fun st => .ok st.books
    findById := Store.getById
    save := Store.insert
    findByIdAndUpdate := Store.update
    findByIdAndDelete := Store.delete
    textSearch := text
    regexFind := fun st rg => .ok (st.regexFind rg) }

/-! ## Responses -/

/-- What a success envelope carries: one document or a list. -/
inductive Payload where
  | book (b : Book)
  | books (bs : List Book)
  deriving DecidableEq

/-- A response: `res.status(s).json({ success: true, data })`,
`res.status(s).json({ success: false, message })`, `res.sendFile(...)`, or the
framework's own 404 when no route matches. -/
inductive Response where
  | success (status : Nat) (data : Payload)
  | failure (status : Nat) (message : String)
  | file (name : String)
  | unrouted
  deriving DecidableEq

/-! ## server.js: the handlers -/

/-- The handler `app.get('/api/books')` (server.js:37-45). -/
def listHandler {σ : Type} (M : BookModel σ) (st : σ) : Response × σ :=
  match M.findAll st with
  | .ok books => (.success 200 (.books books), st)
  | .error _ => (.failure 500 "Server error", st)

/-- The handler `app.get('/api/books/:id')` (server.js:48-56). -/
def readOneHandler {σ : Type} (M : BookModel σ) (st : σ) (id : Str) : Response × σ :=
  match M.findById st id with
  | .ok none => (.failure 404 "Book not found", st)
  | .ok (some b) => (.success 200 (.book b), st)
  | .error _ => (.failure 400 "Invalid ID", st)

/-- The value of `availableCopies` in the object literal (server.js:68):
`availableCopies ? Number(availableCopies) : 1`; `none` when `Number` throws. -/
def initCopies (strToNum : Str → JsNumber) (body : Body) : Option JsNumber :=
  if body.availableCopies.truthy then Number strToNum body.availableCopies else some (.fin 1)

/-- The value of `publishedYear` in the object literal (server.js:70):
`publishedYear ? Number(publishedYear) : undefined`; the outer `none` when
`Number` throws, the inner `none` for `undefined`. -/
def initYear (strToNum : Str → JsNumber) (body : Body) : Option (Option JsNumber) :=
  if body.publishedYear.truthy then (Number strToNum body.publishedYear).map some
  else some none

/-- The object literal of server.js:64-71, its properties evaluated in order;
`none` when one of the two calls of `Number` throws. -/
def bookInit (strToNum : Str → JsNumber) (body : Body) : Option BookInit :=
  match initCopies strToNum body with
  | none => none
  | some copies =>
    match initYear strToNum body with
    | none => none
    | some year =>
      some
        { title := body.title
          author := body.author
          genre := body.genre
          availableCopies := copies
          isbn := body.isbn
          publishedYear := year }

/-- The handler `app.post('/api/books')` (server.js:59-79).  A TypeError
thrown while the object literal is built is caught by the handler's `catch`
like an error of `save`. -/
def createHandler {σ : Type} (strToNum : Str → JsNumber) (M : BookModel σ) (st : σ)
    (body : Body) : Response × σ :=
  if !body.title.truthy || !body.author.truthy then
    (.failure 400 "Title and author required", st)
  else
    match bookInit strToNum body with
    | none => (.failure 500 "Server error", st)
    | some init =>
      match M.save st init with
      | .ok (book, st') => (.success 201 (.book book), st')
      | .error _ => (.failure 500 "Server error", st)

/-- The handler `app.put('/api/books/:id')` (server.js:82-91). -/
def updateHandler {σ : Type} (M : BookModel σ) (st : σ) (id : Str) (body : Body) :
    Response × σ :=
  match M.findByIdAndUpdate st id body with
  | .ok (none, st') => (.failure 404 "Book not found", st')
  | .ok (some updated, st') => (.success 200 (.book updated), st')
  | .error _ => (.failure 400 "Bad request", st)

/-- The handler `app.delete('/api/books/:id')` (server.js:94-102). -/
def deleteHandler {σ : Type} (M : BookModel σ) (st : σ) (id : Str) : Response × σ :=
  match M.findByIdAndDelete st id with
  | .ok (none, st') => (.failure 404 "Book not found", st')
  | .ok (some removed, st') => (.success 200 (.book removed), st')
  | .error _ => (.failure 400 "Invalid ID", st)

/-- What can be thrown inside the search handler: the store's error or the
SyntaxError of `new RegExp`. -/
inductive Thrown where
  | store (e : StoreError)
  | syntaxError
  deriving DecidableEq

/-- Tier 2 (server.js:118-119, and again 123-124):
`const rg = new RegExp(q.split(/\s+/).join('|'), 'i')` and then the `$or`
query with `rg`. -/
def tier2 {σ : Type} (E : RegExpEngine) (M : BookModel σ) (st : σ) (q : Str) :
    Except Thrown (List Book) :=
  match E.compile (fallbackPattern q) "i".toList with
  | none => .error .syntaxError
  | some rg =>
    match M.regexFind st rg with
    | .ok results => .ok results
    | .error e => .error (.store e)

/-- The inner `try` block (server.js:112-120). -/
def searchTry {σ : Type} (E : RegExpEngine) (M : BookModel σ) (st : σ) (q : Str) :
    Except Thrown (List Book) :=
  match M.textSearch st q with
  | .error e => .error (.store e)
  | .ok results =>
    if results.length = 0 then tier2 E M st q else .ok results

/-- The inner `try ... catch (e)` (server.js:112-125): whatever the `try` block
throws, the `catch` block runs Tier 2. -/
def searchResults {σ : Type} (E : RegExpEngine) (M : BookModel σ) (st : σ) (q : Str) :
    Except Thrown (List Book) :=
  match searchTry E M st q with
  | .ok results => .ok results
  | .error _ => tier2 E M st q

/-- The value of `req.query.q`: absent, a string, or (a repeated or bracketed
parameter) an array or object. -/
inductive QueryParam where
  | absent
  | str (s : Str)
  | nonString
  deriving DecidableEq

/-- The handler `app.get('/api/books/search')` (server.js:105-132).
`(req.query.q || '')` is `''` for an absent `q`; an array or object for `q` is
truthy and has no `trim`, so line 107 throws a TypeError into the outer
`catch`. -/
def searchHandler {σ : Type} (E : RegExpEngine) (M : BookModel σ) (st : σ)
    (qp : QueryParam) : Response × σ :=
  match qp with
  | .nonString => (.failure 500 "Server error", st)
  | .absent => (.success 200 (.books []), st)
  | .str raw =>
    if trim raw = [] then (.success 200 (.books []), st)
    else
      match searchResults E M st (trim raw) with
      | .ok results => (.success 200 (.books results), st)
      | .error _ => (.failure 500 "Server error", st)

/-! ## server.js: the route table -/

/-- The request methods the routes are registered for. -/
inductive Method where
  | GET | POST | PUT | DELETE
  deriving DecidableEq

/-- A request: its method, the segments of its path, `req.query.q` and
`req.body`. -/
structure Request where
  method : Method
  path : List String
  q : QueryParam := .absent
  body : Body := {}

/-- The handlers, named. -/
inductive Route where
  | list | readOne | create | update | delete | search | fallback
  deriving DecidableEq

/-- A segment of a route path: a literal or a `:param`. -/
inductive Seg where
  | lit (s : String)
  | param
  deriving DecidableEq

/-- A route path: segments, or `'*'`. -/
inductive RoutePath where
  | segs (ss : List Seg)
  | star
  deriving DecidableEq

/-- The routes in the order `server.js` registers them (lines 37, 48, 59, 82,
94, 105, 135). -/
def routeTable : List (Method × RoutePath × Route) :=
  [ (.GET, .segs [.lit "api", .lit "books"], .list),
    (.GET, .segs [.lit "api", .lit "books", .param], .readOne),
    (.POST, .segs [.lit "api", .lit "books"], .create),
    (.PUT, .segs [.lit "api", .lit "books", .param], .update),
    (.DELETE, .segs [.lit "api", .lit "books", .param], .delete),
    (.GET, .segs [.lit "api", .lit "books", .lit "search"], .search),
    (.GET, .star, .fallback) ]

/-- A route path against the segments of a request path; on a match, the
values of the `:param` segments.  A `:param` takes one non-empty segment.
Segments are compared as written: the framework also accepts another letter
case and a trailing slash, and serves a file of the directory before any
route, none of which the requests below use. -/
def matchSegs : List Seg → List String → Option (List String)
  | [], [] => some []
  | .lit s :: ss, p :: ps => if s = p then matchSegs ss ps else none
  | .param :: ss, p :: ps => if p = "" then none else (matchSegs ss ps).map (p :: ·)
  | _, _ => none

/-- A route against a request: method and path. -/
def matchRoute (m : Method) (rp : RoutePath) (req : Request) : Option (List String) :=
  if m ≠ req.method then none
  else
    match rp with
    | .star => some []
    | .segs ss => matchSegs ss req.path

/-- The first route of a table that matches, with its parameters. -/
def firstMatch : List (Method × RoutePath × Route) → Request → Option (Route × List String)
  | [], _ => none
  | (m, rp, r) :: rest, req =>
    match matchRoute m rp req with
    | some ps => some (r, ps)
    | none => firstMatch rest req

/-- Run a handler on a request. -/
def runRoute {σ : Type} (strToNum : Str → JsNumber) (E : RegExpEngine) (M : BookModel σ)
    (st : σ) (req : Request) (r : Route) (params : List String) : Response × σ :=
  match r with
  | .list => listHandler M st
  | .readOne => readOneHandler M st (params.headD "").toList
  | .create => createHandler strToNum M st req.body
  | .update => updateHandler M st (params.headD "").toList req.body
  | .delete => deleteHandler M st (params.headD "").toList
  | .search => searchHandler E M st req.q
  | .fallback => (.file "index.html", st)

/-- The app on a request: the first matching route handles it (no handler
calls `next`). -/
def dispatch {σ : Type} (strToNum : Str → JsNumber) (E : RegExpEngine) (M : BookModel σ)
    (st : σ) (req : Request) : Response × σ :=
  match firstMatch routeTable req with
  | some (r, params) => runRoute strToNum E M st req r params
  | none => (.unrouted, st)

/-! ## Runs of requests, and the fallback's predicate -/

/-- The store after the app has handled the requests, one after the other,
over the record store of the specification. -/
def runRequests (strToNum : Str → JsNumber) (E : RegExpEngine)
    (text : Store → Str → Except StoreError (List Book)) (st : Store) (reqs : List Request) :
    Store :=
  reqs.foldl (fun s r => (dispatch strToNum E (bookStore text) s r).2) st

/-- Every persisted record has an integer `availableCopies >= 0`. -/
def Store.CopiesNonNeg (st : Store) : Prop :=
  ∀ b ∈ st.books, b.availableCopies.isNonNegInt = true

/-- The `availableCopies` a body supplies is an integer `>= 0`: the number the
create handler computes from a truthy value, and the number an update gives. -/
def Body.SuppliesNonNegCopies (strToNum : Str → JsNumber) (body : Body) : Prop :=
  (body.availableCopies.truthy = true →
    ∀ n, Number strToNum body.availableCopies = some n → n.isNonNegInt = true) ∧
  ∀ n, body.availableCopies = .num n → n.isNonNegInt = true

/-- Whether the title, the author or the genre of `b` contains one of the
tokens as a substring, letter case apart; an unset genre contains nothing. -/
def hasToken (fold : Char → Char) (tokens : List Str) (b : Book) : Bool :=
  tokens.any fun t =>
    ciInfix fold t b.title || ciInfix fold t b.author ||
      (b.genre.map (ciInfix fold t)).getD false

/-! ## script.js: the add-book form -/

/-- The values of the inputs of the add-book form. -/
structure AddBookForm where
  title : Str
  author : Str
  genre : Str
  availableCopies : Str
  isbn : Str
  publishedYear : Str

/-- A number as `JSON.stringify` writes it and the server's `express.json()`
reads it back: `NaN` and the infinities become `null`. -/
def jsonNumber : JsNumber → JsValue
  | .fin q => .num (.fin q)
  | _ => .null

/-- The submit handler of the add-book form up to the request (script.js:
114-131): the object `data` of lines 116-123, the check of line 124 and the
body `JSON.stringify(data)` of line 130.  The result is the body of the POST
request as the server parses it, or `none` when the handler returns with the
toast 'Title and Author required' and sends nothing. -/
def addBookSubmit (strToNum : Str → JsNumber) (form : AddBookForm) : Option Body :=
  let title := trim form.title
  let author := trim form.author
  if title = [] || author = [] then none
  else
    some
      { title := .str title
        author := .str author
        genre := .str (trim form.genre)
        availableCopies :=
          jsonNumber (if form.availableCopies = [] then .fin 1 else strToNum form.availableCopies)
        isbn := .str (trim form.isbn)
        publishedYear :=
          if form.publishedYear = [] then .undefined
          else jsonNumber (strToNum form.publishedYear) }

/-! ## Instances for the examples -/

/-- A `Book` model whose every operation throws `e`, as when the database is
unreachable (`e = unexpected`) or rejects a document (`e = validation`). -/
def throwingModel (e : StoreError) : BookModel Unit :=
  { findAll := fun _ => .error e
    findById := fun _ _ => .error e
    save := fun _ _ => .error e
    findByIdAndUpdate := fun _ _ _ => .error e
    findByIdAndDelete := fun _ _ => .error e
    textSearch := fun _ _ => .error e
    regexFind := fun _ _ => .error e }

/-- The conversion of a string to a number on strings of decimal digits, `NaN`
on every other string; the examples apply it to strings of digits only. -/
def digitsToNumber (s : Str) : JsNumber :=
  if s ≠ [] ∧ s.all Char.isDigit then
    .fin (s.foldl (fun acc c => 10 * acc + (c.toNat - 48)) 0 : Nat)
  else .nan

/-- A full-text query that finds nothing. -/
def noTextHits : Store → Str → Except StoreError (List Book) :=
  fun _ _ => .ok []

/-- A full-text query that throws, as on a collection without a text index. -/
def noTextIndex : Store → Str → Except StoreError (List Book) :=
  fun _ _ => .error .unexpected

/-- The record of the examples. -/
def dune : Book :=
  { id := freshId 0, title := "Dune".toList, author := "Frank Herbert".toList,
    genre := some "Science Fiction".toList, availableCopies := .fin 3, isbn := none,
    publishedYear := some (.fin 1965), createdAt := 0 }

/-- A second record of the examples. -/
def emma : Book :=
  { id := freshId 1, title := "Emma".toList, author := "Jane Austen".toList,
    genre := none, availableCopies := .fin 1, isbn := none,
    publishedYear := none, createdAt := 1 }

/-- A store with the two records of the examples. -/
def twoBooks : Store :=
  { books := [emma, dune], next := 2 }

/-- A create request with three copies, then an update of that record to five
copies. -/
def createThenUpdate : List Request :=
  [ { method := .POST, path := ["api", "books"],
      body := { title := .str "Dune".toList, author := .str "Frank Herbert".toList,
                availableCopies := .num (.fin 3) } },
    { method := .PUT, path := ["api", "books", "000000000000000000000000"],
      body := { availableCopies := .num (.fin 5) } } ]

/-! ## Theorems: script.js -/

theorem escapeChar_unsafe_free (c : Char) : ∀ d ∈ escapeChar c, d ∉ htmlUnsafe := by
  intro d hd
  unfold escapeChar at hd
  split_ifs at hd with h1 h2 h3 h4 h5 h6
  · revert d; decide
  · revert d; decide
  · revert d; decide
  · revert d; decide
  · revert d; decide
  · revert d; decide
  · simp only [List.mem_singleton] at hd
    subst hd
    simp [htmlUnsafe]
    exact ⟨h2, h3, h4, h5, h6⟩

theorem escapeChar_amp (c : Char) :
    ∀ i : Nat, (escapeChar c)[i]? = some '&' →
      i = 0 ∧ ∃ e ∈ htmlEntities, escapeChar c = e := by
  intro i hi
  unfold escapeChar at hi ⊢
  split_ifs at hi ⊢ with h1 h2 h3 h4 h5 h6
  · rcases i with _ | _ | _ | _ | _ | i <;> simp [htmlEntities] at hi ⊢
  · rcases i with _ | _ | _ | _ | i <;> simp [htmlEntities] at hi ⊢
  · rcases i with _ | _ | _ | _ | i <;> simp [htmlEntities] at hi ⊢
  · rcases i with _ | _ | _ | _ | _ | _ | i <;> simp [htmlEntities] at hi ⊢
  · rcases i with _ | _ | _ | _ | _ | i <;> simp [htmlEntities] at hi ⊢
  · rcases i with _ | _ | _ | _ | _ | i <;> simp [htmlEntities] at hi ⊢
  · rcases i with _ | i
    · simp at hi; exact absurd hi h1
    · simp at hi

/-- C10: for every string `text`, `escapeHtml(text)` contains none of the
characters `<`, `>`, `"`, `'` and the backtick, every `&` in it is the first
character of one of the six entities, and the empty string maps to the empty
string. -/
theorem escapeHtml_output_safe (text : Str) :
    (∀ d ∈ escapeHtml text, d ∉ htmlUnsafe) ∧
    (∀ i : Nat, (escapeHtml text)[i]? = some '&' →
      ∃ e ∈ htmlEntities, e <+: (escapeHtml text).drop i) ∧
    escapeHtml [] = [] := by
  refine ⟨?_, ?_, rfl⟩
  · intro d hd
    unfold escapeHtml at hd
    split_ifs at hd with h
    · simp at hd
    · obtain ⟨c, _, hc⟩ := List.mem_flatMap.mp hd
      exact escapeChar_unsafe_free c d hc
  · intro i hi
    have key : ∀ (l : Str) (i : Nat), (l.flatMap escapeChar)[i]? = some '&' →
        ∃ e ∈ htmlEntities, e <+: (l.flatMap escapeChar).drop i := by
      intro l
      induction l with
      | nil => intro i hi; simp at hi
      | cons c cs ih =>
        intro i hi
        rw [List.flatMap_cons] at hi ⊢
        by_cases hlt : i < (escapeChar c).length
        · rw [List.getElem?_append_left hlt] at hi
          obtain ⟨h0, e, he, hce⟩ := escapeChar_amp c i hi
          subst h0
          exact ⟨e, he, by rw [List.drop_zero, hce]; exact List.prefix_append _ _⟩
        · have hge : (escapeChar c).length ≤ i := Nat.le_of_not_lt hlt
          rw [List.getElem?_append_right hge] at hi
          obtain ⟨e, he, hpre⟩ := ih _ hi
          refine ⟨e, he, ?_⟩
          rw [List.drop_append_eq_append_drop, List.drop_of_length_le hge, List.nil_append]
          exact hpre
    unfold escapeHtml at hi ⊢
    split_ifs at hi ⊢ with h
    · simp at hi
    · exact key text i hi

/-! ## Theorems: the create handler -/

theorem bookInit_some (strToNum : Str → JsNumber) (body : Body) (init : BookInit)
    (h : bookInit strToNum body = some init) :
    initCopies strToNum body = some init.availableCopies ∧
      initYear strToNum body = some init.publishedYear := by
  unfold bookInit at h
  rcases hc : initCopies strToNum body with _ | copies
  · simp [hc] at h
  rcases hy : initYear strToNum body with _ | year
  · simp [hc, hy] at h
  simp only [hc, hy, Option.some.injEq] at h
  subst h
  exact ⟨rfl, rfl⟩

theorem bookInit_eq_none_iff (strToNum : Str → JsNumber) (body : Body) :
    bookInit strToNum body = none ↔
      (body.availableCopies.truthy = true ∧ Number strToNum body.availableCopies = none) ∨
      (body.publishedYear.truthy = true ∧ Number strToNum body.publishedYear = none) := by
  unfold bookInit initCopies initYear
  by_cases hc : body.availableCopies.truthy = true <;>
    by_cases hy : body.publishedYear.truthy = true <;>
    rcases hn : Number strToNum body.availableCopies with _ | n <;>
    rcases hm : Number strToNum body.publishedYear with _ | m <;>
    simp [hc, hy, hn, hm]

/-- C4: for every create request whose title or author is missing or the empty
string, the create handler responds with status 400 and
`{success: false, message: 'Title and author required'}`, and the store is
unchanged: `save` is not reached, whatever the `Book` model is. -/
theorem create_rejects_missing {σ : Type} (strToNum : Str → JsNumber) (M : BookModel σ)
    (st : σ) (body : Body)
    (h : body.title = .undefined ∨ body.title = .str [] ∨
      body.author = .undefined ∨ body.author = .str []) :
    createHandler strToNum M st body = (.failure 400 "Title and author required", st) := by
  unfold createHandler
  rcases h with h | h | h | h <;> simp [h, JsValue.truthy]

/-- The create handler at a body without a title, over the store of the
specification: status 400, and the store is the one before. -/
theorem create_rejects_missing_witness :
    ((⟨.undefined, .str "Frank Herbert".toList, .undefined, .undefined, .undefined,
        .undefined⟩ : Body).title = .undefined ∨
      (⟨.undefined, .str "Frank Herbert".toList, .undefined, .undefined, .undefined,
        .undefined⟩ : Body).title = .str [] ∨
      (⟨.undefined, .str "Frank Herbert".toList, .undefined, .undefined, .undefined,
        .undefined⟩ : Body).author = .undefined ∨
      (⟨.undefined, .str "Frank Herbert".toList, .undefined, .undefined, .undefined,
        .undefined⟩ : Body).author = .str []) ∧
    createHandler digitsToNumber (bookStore noTextHits) Store.empty
      ⟨.undefined, .str "Frank Herbert".toList, .undefined, .undefined, .undefined,
        .undefined⟩ =
      (.failure 400 "Title and author required", Store.empty) :=
  ⟨Or.inl rfl, create_rejects_missing digitsToNumber (bookStore noTextHits) Store.empty _
    (Or.inl rfl)⟩

/-! ## Theorems: the route table -/

theorem search_route_shadowed_aux {σ : Type} (strToNum : Str → JsNumber) (E : RegExpEngine)
    (M : BookModel σ) (st : σ) (q : QueryParam) (body : Body) :
    dispatch strToNum E M st ⟨.GET, ["api", "books", "search"], q, body⟩ =
      readOneHandler M st "search".toList := by
  simp [dispatch, firstMatch, routeTable, matchRoute, matchSegs, runRoute]

/-- C1 (the code differs): `GET /api/books/search?q=...` never reaches the
search handler.  The route `/api/books/:id` is registered before
`/api/books/search` and matches the path with `id = 'search'`, so for every
`Book` model, store state and `q` the response is the read-one handler's for
the id `'search'`, which is never the success envelope with an empty list. -/
theorem search_route_shadowed {σ : Type} (strToNum : Str → JsNumber) (E : RegExpEngine)
    (M : BookModel σ) (st : σ) (q : QueryParam) (body : Body) :
    dispatch strToNum E M st ⟨.GET, ["api", "books", "search"], q, body⟩ =
      readOneHandler M st "search".toList ∧
    (dispatch strToNum E M st ⟨.GET, ["api", "books", "search"], q, body⟩).1 ≠
      .success 200 (.books []) := by
  have hd := search_route_shadowed_aux strToNum E M st q body
  refine ⟨hd, ?_⟩
  rw [hd]
  unfold readOneHandler
  rcases hfind : M.findById st "search".toList with e | (_ | b) <;> simp

/-- The request `GET /api/books/search?q=` over the store of the
specification, empty or not: status 400, 'Invalid ID'. -/
theorem search_route_shadowed_invalid_id (strToNum : Str → JsNumber) (E : RegExpEngine)
    (text : Store → Str → Except StoreError (List Book)) (st : Store) (q : QueryParam) :
    dispatch strToNum E (bookStore text) st ⟨.GET, ["api", "books", "search"], q, {}⟩ =
      (.failure 400 "Invalid ID", st) := by
  rw [(search_route_shadowed_aux strToNum E (bookStore text) st q {})]
  rfl

/-- The search handler itself, were it reached, answers an absent, empty or
white-space-only `q` with the empty list. -/
theorem searchHandler_blank {σ : Type} (E : RegExpEngine) (M : BookModel σ) (st : σ)
    (raw : Str) (h : ∀ c ∈ raw, isJsSpace c = true) :
    searchHandler E M st .absent = (.success 200 (.books []), st) ∧
    searchHandler E M st (.str raw) = (.success 200 (.books []), st) := by
  refine ⟨rfl, ?_⟩
  have : trim raw = [] := by
    unfold trim
    have h1 : raw.dropWhile isJsSpace = [] := by
      rw [List.dropWhile_eq_nil_iff]; exact h
    rw [h1]; rfl
  simp [searchHandler, this]

/-! ## Theorems: how the handlers map failures to statuses -/

/-- C6, as stated, fails: the read-one handler answers an unexpected
(database) error of the store with 400 'Invalid ID', not 500, and the create
handler answers a validation error of `save` with 500 'Server error', not
400. -/
theorem status_not_by_error_kind :
    (readOneHandler (throwingModel .unexpected) () "000000000000000000000000".toList).1 =
      .failure 400 "Invalid ID" ∧
    (createHandler digitsToNumber (throwingModel .validation) ()
      { title := .str "Dune".toList, author := .str "Frank Herbert".toList }).1 =
      .failure 500 "Server error" := by
  constructor <;> rfl

/-- C6, amended: each handler decides the status by whether the store
operation returned a record, returned nothing or threw, and not by the kind of
error thrown.  List: 500 on any throw.  Read-one: 404 when nothing is found,
400 'Invalid ID' on any throw.  Create: 400 when title or author is falsy,
otherwise 500 on any throw of `save`.  Update: 404 when nothing is found, 400
'Bad request' on any throw.  Delete: 404 when nothing is found, 400
'Invalid ID' on any throw.  Search: 500 on any throw Tier 2 does not absorb. -/
theorem status_by_handler {σ : Type} (strToNum : Str → JsNumber) (E : RegExpEngine)
    (M : BookModel σ) (st : σ) (id : Str) (body : Body) (raw : Str) :
    (∀ e, M.findAll st = .error e → listHandler M st = (.failure 500 "Server error", st)) ∧
    (M.findById st id = .ok none →
      readOneHandler M st id = (.failure 404 "Book not found", st)) ∧
    (∀ e, M.findById st id = .error e →
      readOneHandler M st id = (.failure 400 "Invalid ID", st)) ∧
    (body.title.truthy = false ∨ body.author.truthy = false →
      createHandler strToNum M st body = (.failure 400 "Title and author required", st)) ∧
    (∀ init e, body.title.truthy = true → body.author.truthy = true →
      bookInit strToNum body = some init → M.save st init = .error e →
      createHandler strToNum M st body = (.failure 500 "Server error", st)) ∧
    (∀ st', M.findByIdAndUpdate st id body = .ok (none, st') →
      updateHandler M st id body = (.failure 404 "Book not found", st')) ∧
    (∀ e, M.findByIdAndUpdate st id body = .error e →
      updateHandler M st id body = (.failure 400 "Bad request", st)) ∧
    (∀ st', M.findByIdAndDelete st id = .ok (none, st') →
      deleteHandler M st id = (.failure 404 "Book not found", st')) ∧
    (∀ e, M.findByIdAndDelete st id = .error e →
      deleteHandler M st id = (.failure 400 "Invalid ID", st)) ∧
    (∀ t, trim raw ≠ [] → searchResults E M st (trim raw) = .error t →
      searchHandler E M st (.str raw) = (.failure 500 "Server error", st)) := by
  refine ⟨?_, ?_, ?_, ?_, ?_, ?_, ?_, ?_, ?_, ?_⟩
  · intro e h; simp [listHandler, h]
  · intro h; simp [readOneHandler, h]
  · intro e h; simp [readOneHandler, h]
  · intro h; unfold createHandler; rcases h with h | h <;> simp [h]
  · intro init e ht ha hi h; simp [createHandler, ht, ha, hi, h]
  · intro st' h; simp [updateHandler, h]
  · intro e h; simp [updateHandler, h]
  · intro st' h; simp [deleteHandler, h]
  · intro e h; simp [deleteHandler, h]
  · intro t hq h; simp [searchHandler, hq, h]

/-- The amended C6 over a model whose operations throw an unexpected error:
list answers 500, read-one 400, create 500, update 400 and delete 400. -/
theorem status_by_handler_witness :
    listHandler (throwingModel .unexpected) () = (.failure 500 "Server error", ()) ∧
    readOneHandler (throwingModel .unexpected) () "abc".toList =
      (.failure 400 "Invalid ID", ()) ∧
    createHandler digitsToNumber (throwingModel .unexpected) ()
      { title := .str "Dune".toList, author := .str "Frank Herbert".toList } =
      (.failure 500 "Server error", ()) ∧
    updateHandler (throwingModel .unexpected) () "abc".toList {} =
      (.failure 400 "Bad request", ()) ∧
    deleteHandler (throwingModel .unexpected) () "abc".toList =
      (.failure 400 "Invalid ID", ()) := by
  have h := status_by_handler digitsToNumber (literalEngine Char.toLower)
    (throwingModel .unexpected) () "abc".toList
    { title := .str "Dune".toList, author := .str "Frank Herbert".toList } "dune".toList
  have h' := status_by_handler digitsToNumber (literalEngine Char.toLower)
    (throwingModel .unexpected) () "abc".toList {} "dune".toList
  exact ⟨h.1 _ rfl, h.2.2.1 _ rfl, h.2.2.2.2.1 _ _ rfl rfl rfl rfl, h'.2.2.2.2.2.2.1 _ rfl,
    h.2.2.2.2.2.2.2.2.1 _ rfl⟩

/-! ## Theorems: the create handler and white space -/

/-- C7, as stated, fails: a create request with the title `' '` (one blank) and
an author passes the handler's check.  Over the store of the specification it
is answered with 201 and the record with the blank title is persisted; over a
model whose `save` rejects the document it is answered with 500; in neither
case with 400. -/
theorem create_blank_title_persisted :
    (createHandler digitsToNumber (throwingModel .validation) ()
      { title := .str " ".toList, author := .str "Frank Herbert".toList }).1 =
      .failure 500 "Server error" ∧
    createHandler digitsToNumber (bookStore noTextHits) Store.empty
      { title := .str " ".toList, author := .str "Frank Herbert".toList } =
      (.success 201 (.book
          { id := freshId 0, title := " ".toList, author := "Frank Herbert".toList,
            genre := none, availableCopies := .fin 1, isbn := none, publishedYear := none,
            createdAt := 0 }),
        { books :=
            [{ id := freshId 0, title := " ".toList, author := "Frank Herbert".toList,
               genre := none, availableCopies := .fin 1, isbn := none, publishedYear := none,
               createdAt := 0 }],
          next := 1 }) := by
  constructor <;> rfl

/-- C7, amended: title and author are required non-empty after trimming by
the client's add-book form, which sends no request when either is empty or
white space only; the server's create handler does not trim.  For every create
request whose title and author are non-empty strings, white-space-only ones
included, the handler passes its check and builds the record: when one of the
two numeric coercions throws (`Number` of a truthy `availableCopies` or
`publishedYear`) the response is 500 and `save` is not reached; otherwise the
record is handed to `save`, and the response is 201 with the saved record
when `save` succeeds and 500 when it throws.  The response is never the 400
of a missing title or author. -/
theorem create_does_not_trim {σ : Type} (strToNum : Str → JsNumber) (M : BookModel σ)
    (st : σ) (body : Body) (t a : Str) (ht : body.title = .str t) (ha : body.author = .str a)
    (ht0 : t ≠ []) (ha0 : a ≠ []) :
    (bookInit strToNum body = none ↔
      (body.availableCopies.truthy = true ∧ Number strToNum body.availableCopies = none) ∨
      (body.publishedYear.truthy = true ∧ Number strToNum body.publishedYear = none)) ∧
    (bookInit strToNum body = none →
      createHandler strToNum M st body = (.failure 500 "Server error", st)) ∧
    (∀ init book st', bookInit strToNum body = some init → M.save st init = .ok (book, st') →
      createHandler strToNum M st body = (.success 201 (.book book), st')) ∧
    (∀ init e, bookInit strToNum body = some init → M.save st init = .error e →
      createHandler strToNum M st body = (.failure 500 "Server error", st)) ∧
    (createHandler strToNum M st body).1 ≠ .failure 400 "Title and author required" ∧
    (∀ form : AddBookForm, trim form.title = [] ∨ trim form.author = [] →
      addBookSubmit strToNum form = none) := by
  have htt : body.title.truthy = true := by simp [ht, JsValue.truthy, ht0]
  have hat : body.author.truthy = true := by simp [ha, JsValue.truthy, ha0]
  refine ⟨bookInit_eq_none_iff strToNum body, ?_, ?_, ?_, ?_, ?_⟩
  · intro h; simp [createHandler, htt, hat, h]
  · intro init book st' hi h; simp [createHandler, htt, hat, hi, h]
  · intro init e hi h; simp [createHandler, htt, hat, hi, h]
  · unfold createHandler
    rcases hi : bookInit strToNum body with _ | init
    · simp [htt, hat]
    · rcases hs : M.save st init with e | ⟨book, st'⟩ <;> simp [htt, hat, hs]
  · intro form h
    unfold addBookSubmit
    rcases h with h | h <;> simp [h]

/-- The amended C7 at the title `' '`: over the store of the specification the
answer is 201 and the record is persisted; with
`availableCopies: {"toString": 1}`, on which `Number` throws, the answer is 500
and the store is unchanged; the client's form with the title `' '` sends
nothing. -/
theorem create_does_not_trim_witness :
    createHandler digitsToNumber (bookStore noTextHits) Store.empty
      { title := .str " ".toList, author := .str "Frank Herbert".toList } =
      (.success 201 (.book
          { id := freshId 0, title := " ".toList, author := "Frank Herbert".toList,
            genre := none, availableCopies := .fin 1, isbn := none, publishedYear := none,
            createdAt := 0 }),
        { books :=
            [{ id := freshId 0, title := " ".toList, author := "Frank Herbert".toList,
               genre := none, availableCopies := .fin 1, isbn := none, publishedYear := none,
               createdAt := 0 }],
          next := 1 }) ∧
    createHandler digitsToNumber (bookStore noTextHits) Store.empty
      { title := .str " ".toList, author := .str "A".toList,
        availableCopies := .object none } =
      (.failure 500 "Server error", Store.empty) ∧
    addBookSubmit digitsToNumber
      { title := " ".toList, author := "Frank Herbert".toList, genre := [],
        availableCopies := [], isbn := [], publishedYear := [] } = none :=
  have h := create_does_not_trim digitsToNumber (bookStore noTextHits) Store.empty
    { title := .str " ".toList, author := .str "Frank Herbert".toList }
    " ".toList "Frank Herbert".toList rfl rfl (by decide) (by decide)
  have h' := create_does_not_trim digitsToNumber (bookStore noTextHits) Store.empty
    { title := .str " ".toList, author := .str "A".toList, availableCopies := .object none }
    " ".toList "A".toList rfl rfl (by decide) (by decide)
  ⟨h.2.2.1 _ _ _ rfl rfl, h'.2.1 rfl, h.2.2.2.2.2 _ (Or.inl (by decide))⟩

/-! ## Theorems: the defaults of the create handler -/

theorem insert_ok_fields (st : Store) (init : BookInit) (book : Book) (st' : Store)
    (h : st.insert init = .ok (book, st')) :
    book.availableCopies = init.availableCopies ∧ book.publishedYear = init.publishedYear ∧
      st'.books = book :: st.books := by
  unfold Store.insert at h
  rcases h1 : castRequired init.title with e | title
  · simp [h1, bind, Except.bind] at h
  rcases h2 : castRequired init.author with e | author
  · simp [h1, h2, bind, Except.bind] at h
  rcases h3 : castText init.genre with e | genre
  · simp [h1, h2, h3, bind, Except.bind] at h
  rcases h4 : castText init.isbn with e | isbn
  · simp [h1, h2, h3, h4, bind, Except.bind] at h
  simp only [h1, h2, h3, h4, bind, Except.bind, pure, Except.pure, Except.ok.injEq,
    Prod.mk.injEq] at h
  obtain ⟨hb, hs⟩ := h
  subst hb
  subst hs
  exact ⟨rfl, rfl, rfl⟩

/-- C5, as stated, fails: for a create request whose payload has
`publishedYear: 0`, a value that is present, the object given to `new Book`
has `publishedYear: undefined` and the created record's `publishedYear` is
unset, while the numeric coercion of the value is `0`. -/
theorem create_year_zero_unset :
    (bookInit digitsToNumber
      { title := .str "Dune".toList, author := .str "Frank Herbert".toList,
        publishedYear := .num (.fin 0) }).map (fun init => init.publishedYear) = some none ∧
    createHandler digitsToNumber (bookStore noTextHits) Store.empty
      { title := .str "Dune".toList, author := .str "Frank Herbert".toList,
        publishedYear := .num (.fin 0) } =
      (.success 201 (.book
          { id := freshId 0, title := "Dune".toList, author := "Frank Herbert".toList,
            genre := none, availableCopies := .fin 1, isbn := none, publishedYear := none,
            createdAt := 0 }),
        { books :=
            [{ id := freshId 0, title := "Dune".toList, author := "Frank Herbert".toList,
               genre := none, availableCopies := .fin 1, isbn := none, publishedYear := none,
               createdAt := 0 }],
          next := 1 }) ∧
    Number digitsToNumber (.num (.fin 0)) = some (.fin 0) := by
  refine ⟨rfl, rfl, rfl⟩

/-- C5, amended: for every create request with truthy title and author whose
save succeeds, the response is 201 with the created record, which is
persisted; its `availableCopies` is 1 when the payload omits the field or
gives a falsy value and is `Number(value)` otherwise; its `publishedYear` is
`Number(value)` when the payload's value is truthy and is left unset when the
field is absent or falsy (`0`, `''`, `null`). -/
theorem create_record_defaults (strToNum : Str → JsNumber)
    (text : Store → Str → Except StoreError (List Book)) (st : Store) (body : Body)
    (init : BookInit) (book : Book) (st' : Store)
    (ht : body.title.truthy = true) (ha : body.author.truthy = true)
    (hinit : bookInit strToNum body = some init)
    (hsave : (bookStore text).save st init = .ok (book, st')) :
    createHandler strToNum (bookStore text) st body = (.success 201 (.book book), st') ∧
    book ∈ st'.books ∧
    (body.availableCopies.truthy = false → book.availableCopies = .fin 1) ∧
    (body.availableCopies.truthy = true →
      Number strToNum body.availableCopies = some book.availableCopies) ∧
    (body.publishedYear.truthy = true →
      ∃ n, Number strToNum body.publishedYear = some n ∧ book.publishedYear = some n) ∧
    (body.publishedYear.truthy = false → book.publishedYear = none) := by
  obtain ⟨hc, hy, hb⟩ := insert_ok_fields st _ book st' hsave
  obtain ⟨hic, hiy⟩ := bookInit_some strToNum body init hinit
  unfold initCopies at hic
  unfold initYear at hiy
  refine ⟨?_, ?_, ?_, ?_, ?_, ?_⟩
  · simp [createHandler, ht, ha, hinit, hsave]
  · rw [hb]; exact List.mem_cons_self _ _
  · intro h
    rw [hc]
    simp only [h, Bool.false_eq_true, if_false, Option.some.injEq] at hic
    exact hic.symm
  · intro h
    rw [hc]
    simpa only [h, if_true] using hic
  · intro h
    rw [hy]
    simp only [h, if_true] at hiy
    rcases hn : Number strToNum body.publishedYear with _ | n
    · simp [hn] at hiy
    · refine ⟨n, rfl, ?_⟩
      simp only [hn, Option.map_some', Option.some.injEq] at hiy
      exact hiy.symm
  · intro h
    rw [hy]
    simp only [h, Bool.false_eq_true, if_false, Option.some.injEq] at hiy
    exact hiy.symm

/-- The amended C5 at `{title: 'Dune', author: 'Frank Herbert',
availableCopies: 3, publishedYear: '1965'}` on the empty store. -/
theorem create_record_defaults_witness :
    createHandler digitsToNumber (bookStore noTextHits) Store.empty
      { title := .str "Dune".toList, author := .str "Frank Herbert".toList,
        availableCopies := .num (.fin 3), publishedYear := .str "1965".toList } =
      (.success 201 (.book
          { id := freshId 0, title := "Dune".toList, author := "Frank Herbert".toList,
            genre := none, availableCopies := .fin 3, isbn := none,
            publishedYear := some (.fin 1965), createdAt := 0 }),
        { books :=
            [{ id := freshId 0, title := "Dune".toList, author := "Frank Herbert".toList,
               genre := none, availableCopies := .fin 3, isbn := none,
               publishedYear := some (.fin 1965), createdAt := 0 }],
          next := 1 }) :=
  (create_record_defaults digitsToNumber noTextHits Store.empty
    { title := .str "Dune".toList, author := .str "Frank Herbert".toList,
      availableCopies := .num (.fin 3), publishedYear := .str "1965".toList }
    { title := .str "Dune".toList, author := .str "Frank Herbert".toList,
      genre := .undefined, availableCopies := .fin 3, isbn := .undefined,
      publishedYear := some (.fin 1965) }
    { id := freshId 0, title := "Dune".toList, author := "Frank Herbert".toList,
      genre := none, availableCopies := .fin 3, isbn := none,
      publishedYear := some (.fin 1965), createdAt := 0 }
    { books :=
        [{ id := freshId 0, title := "Dune".toList, author := "Frank Herbert".toList,
           genre := none, availableCopies := .fin 3, isbn := none,
           publishedYear := some (.fin 1965), createdAt := 0 }],
      next := 1 }
    rfl rfl rfl rfl).1

/-! ## Theorems: `availableCopies` over runs of requests -/

theorem listHandler_state {σ : Type} (M : BookModel σ) (st : σ) :
    (listHandler M st).2 = st := by
  unfold listHandler; split <;> rfl

theorem readOneHandler_state {σ : Type} (M : BookModel σ) (st : σ) (id : Str) :
    (readOneHandler M st id).2 = st := by
  unfold readOneHandler; split <;> rfl

theorem searchHandler_state {σ : Type} (E : RegExpEngine) (M : BookModel σ) (st : σ)
    (qp : QueryParam) : (searchHandler E M st qp).2 = st := by
  unfold searchHandler
  split
  · rfl
  · rfl
  · split
    · rfl
    · split <;> rfl

theorem createHandler_copies (strToNum : Str → JsNumber)
    (text : Store → Str → Except StoreError (List Book)) (st : Store) (body : Body)
    (hst : st.CopiesNonNeg) (hb : body.SuppliesNonNegCopies strToNum) :
    (createHandler strToNum (bookStore text) st body).2.CopiesNonNeg := by
  unfold createHandler
  split
  · exact hst
  · rcases hi : bookInit strToNum body with _ | init
    · exact hst
    simp only
    rcases hs : (bookStore text).save st init with e | ⟨book, st'⟩
    · exact hst
    · obtain ⟨hc, _, hbooks⟩ := insert_ok_fields st _ book st' hs
      obtain ⟨hic, _⟩ := bookInit_some strToNum body init hi
      unfold initCopies at hic
      intro b hmem
      simp only at hmem
      rw [hbooks] at hmem
      rcases List.mem_cons.mp hmem with h | h
      · subst h
        rw [hc]
        by_cases htr : body.availableCopies.truthy = true
        · rw [if_pos htr] at hic
          exact hb.1 htr _ hic
        · rw [if_neg htr, Option.some.injEq] at hic
          rw [← hic]
          decide
      · exact hst b h

theorem mergeFields_copies (b merged : Book) (body : Body)
    (h : mergeFields b body = .ok merged) :
    merged.availableCopies = b.availableCopies ∨
      body.availableCopies = .num merged.availableCopies := by
  unfold mergeFields at h
  rcases h1 : castText body.title with e | title
  · simp [h1, bind, Except.bind] at h
  rcases h2 : castText body.author with e | author
  · simp [h1, h2, bind, Except.bind] at h
  rcases h3 : castText body.genre with e | genre
  · simp [h1, h2, h3, bind, Except.bind] at h
  rcases h4 : castNumber body.availableCopies with e | copies
  · simp [h1, h2, h3, h4, bind, Except.bind] at h
  rcases h5 : castText body.isbn with e | isbn
  · simp [h1, h2, h3, h4, h5, bind, Except.bind] at h
  rcases h6 : castNumber body.publishedYear with e | year
  · simp [h1, h2, h3, h4, h5, h6, bind, Except.bind] at h
  simp only [h1, h2, h3, h4, h5, h6, bind, Except.bind, pure, Except.pure] at h
  split_ifs at h
  simp only [Except.ok.injEq] at h
  subst h
  cases copies with
  | none => left; rfl
  | some n =>
    right
    cases hv : body.availableCopies <;> simp [hv, castNumber] at h4
    simp [h4]

theorem updateHandler_copies (text : Store → Str → Except StoreError (List Book))
    (strToNum : Str → JsNumber) (st : Store) (id : Str) (body : Body)
    (hst : st.CopiesNonNeg) (hb : body.SuppliesNonNegCopies strToNum) :
    (updateHandler (bookStore text) st id body).2.CopiesNonNeg := by
  unfold updateHandler
  rcases hu : (bookStore text).findByIdAndUpdate st id body with e | ⟨_ | updated, st'⟩
  · exact hst
  all_goals
    simp only
    have hu' : Store.update st id body = _ := hu
    unfold Store.update at hu'
    split_ifs at hu' with hwf
    rcases hf : st.books.find? (fun b => b.id = id) with _ | b0
    · simp only [hf, Except.ok.injEq, Prod.mk.injEq] at hu'
      obtain ⟨_, hs⟩ := hu'
      rw [← hs]
      exact hst
    · rcases hm : mergeFields b0 body with e | merged
      · simp [hf, hm] at hu'
      · simp only [hf, hm, Except.ok.injEq, Prod.mk.injEq] at hu'
        obtain ⟨_, hs⟩ := hu'
        rw [← hs]
        intro b hmem
        simp only [List.mem_map] at hmem
        obtain ⟨x, hx, hxb⟩ := hmem
        split_ifs at hxb
        · subst hxb
          rcases mergeFields_copies b0 _ body hm with h | h
          · rw [h]; exact hst b0 (List.mem_of_find?_eq_some hf)
          · exact hb.2 _ h
        · subst hxb; exact hst x hx

theorem deleteHandler_copies (text : Store → Str → Except StoreError (List Book))
    (st : Store) (id : Str) (hst : st.CopiesNonNeg) :
    (deleteHandler (bookStore text) st id).2.CopiesNonNeg := by
  unfold deleteHandler
  rcases hu : (bookStore text).findByIdAndDelete st id with e | ⟨_ | removed, st'⟩
  · exact hst
  all_goals
    simp only
    have hu' : Store.delete st id = _ := hu
    unfold Store.delete at hu'
    split_ifs at hu' with hwf
    rcases hf : st.books.find? (fun b => b.id = id) with _ | b0
    · simp only [hf, Except.ok.injEq, Prod.mk.injEq] at hu'
      obtain ⟨_, hs⟩ := hu'
      rw [← hs]
      exact hst
    · simp only [hf, Except.ok.injEq, Prod.mk.injEq] at hu'
      obtain ⟨_, hs⟩ := hu'
      rw [← hs]
      intro b hmem
      exact hst b (List.mem_filter.mp hmem).1

theorem dispatch_copies (strToNum : Str → JsNumber) (E : RegExpEngine)
    (text : Store → Str → Except StoreError (List Book)) (st : Store) (req : Request)
    (hst : st.CopiesNonNeg) (hb : req.body.SuppliesNonNegCopies strToNum) :
    (dispatch strToNum E (bookStore text) st req).2.CopiesNonNeg := by
  unfold dispatch
  rcases firstMatch routeTable req with _ | ⟨r, params⟩
  · exact hst
  · cases r <;> simp only [runRoute]
    · rw [listHandler_state]; exact hst
    · rw [readOneHandler_state]; exact hst
    · exact createHandler_copies strToNum text st _ hst hb
    · exact updateHandler_copies text strToNum st _ _ hst hb
    · exact deleteHandler_copies text st _ hst
    · rw [searchHandler_state]; exact hst
    · exact hst

/-- C8, as stated, fails: one create request with `availableCopies: -5` on the
empty store leaves a persisted record whose `availableCopies` is `-5`. -/
theorem negative_copies_persisted :
    (runRequests digitsToNumber (literalEngine Char.toLower) noTextHits Store.empty
      [{ method := .POST, path := ["api", "books"],
         body := { title := .str "Dune".toList, author := .str "Frank Herbert".toList,
                   availableCopies := .num (.fin (-5)) } }]).books.map
        (fun b => b.availableCopies) = [.fin (-5)] ∧
    (JsNumber.fin (-5)).isNonNegInt = false := by
  constructor
  · rfl
  · decide

/-- C8, amended: starting from the empty store, after any sequence of requests
handled by the server in which every `availableCopies` a request body supplies
is an integer `>= 0` (the number the create handler computes from a truthy
value, and the number an update gives), every persisted record has an integer
`availableCopies >= 0`.  The handlers and the store check no bound
themselves. -/
theorem copies_nonneg_of_requests (strToNum : Str → JsNumber) (E : RegExpEngine)
    (text : Store → Str → Except StoreError (List Book)) (reqs : List Request)
    (h : ∀ r ∈ reqs, r.body.SuppliesNonNegCopies strToNum) :
    (runRequests strToNum E text Store.empty reqs).CopiesNonNeg := by
  have key : ∀ (reqs : List Request) (st : Store), st.CopiesNonNeg →
      (∀ r ∈ reqs, r.body.SuppliesNonNegCopies strToNum) →
      (runRequests strToNum E text st reqs).CopiesNonNeg := by
    intro reqs
    induction reqs with
    | nil => intro st hst _; exact hst
    | cons r rs ih =>
      intro st hst hall
      unfold runRequests
      rw [List.foldl_cons]
      exact ih _ (dispatch_copies strToNum E text st r hst (hall r (List.mem_cons_self _ _)))
        (fun x hx => hall x (List.mem_cons_of_mem _ hx))
  exact key reqs Store.empty (fun b hb => by simp [Store.empty] at hb) h

/-- The amended C8 on a create request with three copies followed by an
update to five: the one persisted record has five copies. -/
theorem copies_nonneg_of_requests_witness :
    (∀ r ∈ createThenUpdate, r.body.SuppliesNonNegCopies digitsToNumber) ∧
    (runRequests digitsToNumber (literalEngine Char.toLower) noTextHits Store.empty
      createThenUpdate).CopiesNonNeg ∧
    (runRequests digitsToNumber (literalEngine Char.toLower) noTextHits Store.empty
      createThenUpdate).books.map (fun b => b.availableCopies) = [.fin 5] := by
  have hreqs : ∀ r ∈ createThenUpdate, r.body.SuppliesNonNegCopies digitsToNumber := by
    intro r hr
    simp only [createThenUpdate, List.mem_cons, List.mem_singleton, List.not_mem_nil,
      or_false] at hr
    rcases hr with rfl | rfl
    · refine ⟨fun _ => by decide, fun n hn => ?_⟩
      simp only [JsValue.num.injEq] at hn
      subst hn
      decide
    · refine ⟨fun _ => by decide, fun n hn => ?_⟩
      simp only [JsValue.num.injEq] at hn
      subst hn
      decide
  exact ⟨hreqs,
    copies_nonneg_of_requests digitsToNumber (literalEngine Char.toLower) noTextHits
      createThenUpdate hreqs, by rfl⟩

/-! ## Theorems: the two tiers of the search handler -/

/-- C2, as stated, fails: for the query `(`, with a Tier 1 that yields zero
records and with a Tier 1 that throws, the search handler answers 500
'Server error' and no result list. -/
theorem search_paren_server_error :
    trim "(".toList ≠ [] ∧
    (bookStore noTextHits).textSearch twoBooks (trim "(".toList) = .ok [] ∧
    searchHandler (literalEngine Char.toLower) (bookStore noTextHits) twoBooks
      (.str "(".toList) = (.failure 500 "Server error", twoBooks) ∧
    (bookStore noTextIndex).textSearch twoBooks (trim "(".toList) = .error .unexpected ∧
    searchHandler (literalEngine Char.toLower) (bookStore noTextIndex) twoBooks
      (.str "(".toList) = (.failure 500 "Server error", twoBooks) := by
  refine ⟨by decide, rfl, rfl, rfl, rfl⟩

/-- C2, amended: for every non-empty trimmed query, the search handler returns
the Tier-1 list unchanged when Tier 1 succeeds with at least one record; when
Tier 1 yields zero records or throws, it returns the Tier-2 list provided Tier
2 itself succeeds (the pattern compiles and the store query returns), and
answers 500 'Server error' when Tier 2 throws; a Tier-1 error reaches the
caller in no other way. -/
theorem search_two_tiers {σ : Type} (E : RegExpEngine) (M : BookModel σ) (st : σ)
    (raw : Str) (hq : trim raw ≠ []) :
    (∀ r rs, M.textSearch st (trim raw) = .ok (r :: rs) →
      searchHandler E M st (.str raw) = (.success 200 (.books (r :: rs)), st)) ∧
    ((M.textSearch st (trim raw) = .ok [] ∨ ∃ e, M.textSearch st (trim raw) = .error e) →
      (∀ l, tier2 E M st (trim raw) = .ok l →
        searchHandler E M st (.str raw) = (.success 200 (.books l), st)) ∧
      (∀ t, tier2 E M st (trim raw) = .error t →
        searchHandler E M st (.str raw) = (.failure 500 "Server error", st))) := by
  refine ⟨?_, ?_⟩
  · intro r rs h
    simp [searchHandler, hq, searchResults, searchTry, h]
  · intro h1
    refine ⟨?_, ?_⟩
    · intro l h2
      rcases h1 with h1 | ⟨e, h1⟩ <;>
        simp [searchHandler, hq, searchResults, searchTry, h1, h2]
    · intro t h2
      rcases h1 with h1 | ⟨e, h1⟩ <;>
        simp [searchHandler, hq, searchResults, searchTry, h1, h2]

/-- The amended C2 at the query `dune`: with a Tier 1 that yields nothing, and
with a Tier 1 that throws, the handler returns the Tier-2 list, the record
titled Dune. -/
theorem search_two_tiers_witness :
    trim "dune".toList ≠ [] ∧
    searchHandler (literalEngine Char.toLower) (bookStore noTextHits) twoBooks
      (.str "dune".toList) = (.success 200 (.books [dune]), twoBooks) ∧
    searchHandler (literalEngine Char.toLower) (bookStore noTextIndex) twoBooks
      (.str "dune".toList) = (.success 200 (.books [dune]), twoBooks) :=
  ⟨by decide,
    (search_two_tiers (literalEngine Char.toLower) (bookStore noTextHits) twoBooks
      "dune".toList (by decide)).2 (Or.inl rfl) |>.1 [dune] (by rfl),
    (search_two_tiers (literalEngine Char.toLower) (bookStore noTextIndex) twoBooks
      "dune".toList (by decide)).2 (Or.inr ⟨_, rfl⟩) |>.1 [dune] (by rfl)⟩

/-- C9: for every non-empty trimmed query whose tokens joined by `|` do not
form a valid regular expression, whenever Tier 1 returns no records or throws,
the search handler answers with status 500 and
`{success: false, message: 'Server error'}`: the construction of the pattern
throws in the empty-result branch of the `try` block and again in the `catch`
block, and only the outer `catch` handles it. -/
theorem search_invalid_pattern {σ : Type} (E : RegExpEngine) (M : BookModel σ) (st : σ)
    (raw : Str) (hq : trim raw ≠ [])
    (hbad : E.compile (fallbackPattern (trim raw)) "i".toList = none)
    (h1 : M.textSearch st (trim raw) = .ok [] ∨ ∃ e, M.textSearch st (trim raw) = .error e) :
    searchHandler E M st (.str raw) = (.failure 500 "Server error", st) ∧
    (M.textSearch st (trim raw) = .ok [] → searchTry E M st (trim raw) = .error .syntaxError) ∧
    tier2 E M st (trim raw) = .error .syntaxError ∧
    searchResults E M st (trim raw) = .error .syntaxError := by
  have ht2 : tier2 E M st (trim raw) = .error .syntaxError := by
    unfold tier2
    rw [hbad]
  refine ⟨?_, ?_, ht2, ?_⟩
  · rcases h1 with h1 | ⟨e, h1⟩ <;>
      simp [searchHandler, hq, searchResults, searchTry, h1, ht2]
  · intro h; simp [searchTry, h, ht2]
  · rcases h1 with h1 | ⟨e, h1⟩ <;> simp [searchResults, searchTry, h1, ht2]

/-- C9 at the queries `(` (Tier 1 yields nothing) and `c++` (Tier 1 throws):
status 500. -/
theorem search_invalid_pattern_witness :
    searchHandler (literalEngine Char.toLower) (bookStore noTextHits) twoBooks
      (.str "(".toList) = (.failure 500 "Server error", twoBooks) ∧
    searchHandler (literalEngine Char.toLower) (bookStore noTextIndex) twoBooks
      (.str "c++".toList) = (.failure 500 "Server error", twoBooks) :=
  ⟨(search_invalid_pattern (literalEngine Char.toLower) (bookStore noTextHits) twoBooks
      "(".toList (by decide) rfl (Or.inl rfl)).1,
    (search_invalid_pattern (literalEngine Char.toLower) (bookStore noTextIndex) twoBooks
      "c++".toList (by decide) rfl (Or.inr ⟨_, rfl⟩)).1⟩

/-! ## Theorems: the fallback of the search handler -/

theorem splitWsAux_ne_nil (s : Str) (inRun : Bool) : splitWsAux s inRun ≠ [] := by
  induction s generalizing inRun with
  | nil => simp [splitWsAux]
  | cons c cs ih =>
    unfold splitWsAux
    split_ifs
    · exact ih true
    · simp
    · split <;> simp

theorem literalEngine_literalAlternation (fold : Char → Char) :
    (literalEngine fold).LiteralAlternation fold := by
  intro alts hne hmeta
  have hbar : ∀ l ∈ alts, '|' ∉ l := by
    intro l hl hmem
    have := hmeta l hl '|' hmem
    revert this
    decide
  have hsplit : (join '|' alts).splitOn '|' = alts := List.splitOn_intercalate alts '|' hbar hne
  have hall : (alts.all fun alt => alt.all fun c => !isMeta c) = true := by
    simp only [List.all_eq_true]
    intro t ht c hc
    simp [hmeta t ht c hc]
  refine ⟨fun s => alts.any fun alt => ciInfix fold alt s, ?_, ?_⟩
  · simp only [literalEngine, hsplit, hall, if_true]
  · intro s
    simp only [List.any_eq_true]

theorem matchesAny_eq_hasToken (fold : Char → Char) (tokens : List Str) (rg : Matcher)
    (hrg : ∀ s, rg s = true ↔ ∃ t ∈ tokens, ciInfix fold t s = true) (b : Book) :
    matchesAny rg b = hasToken fold tokens b := by
  rw [Bool.eq_iff_iff]
  unfold matchesAny hasToken
  simp only [Bool.or_eq_true, List.any_eq_true, hrg]
  constructor
  · rintro ((⟨t, ht, h⟩ | ⟨t, ht, h⟩) | h)
    · exact ⟨t, ht, Or.inl (Or.inl h)⟩
    · exact ⟨t, ht, Or.inl (Or.inr h)⟩
    · cases hg : b.genre with
      | none => simp [hg] at h
      | some g =>
        simp only [hg, Option.map_some', Option.getD_some] at h
        obtain ⟨t, ht, h⟩ := (hrg g).mp h
        exact ⟨t, ht, Or.inr (by simp [h])⟩
  · rintro ⟨t, ht, (h | h) | h⟩
    · exact Or.inl (Or.inl ⟨t, ht, h⟩)
    · exact Or.inl (Or.inr ⟨t, ht, h⟩)
    · cases hg : b.genre with
      | none => simp [hg] at h
      | some g =>
        simp only [hg, Option.map_some', Option.getD_some] at h
        exact Or.inr (by simp only [Option.map_some', Option.getD_some]; exact (hrg g).mpr ⟨t, ht, h⟩)

theorem hasToken_iff (fold : Char → Char) (tokens : List Str) (b : Book) :
    hasToken fold tokens b = true ↔
      ∃ t ∈ tokens, t.map fold <:+: b.title.map fold ∨ t.map fold <:+: b.author.map fold ∨
        ∃ g, b.genre = some g ∧ t.map fold <:+: g.map fold := by
  unfold hasToken ciInfix
  simp only [List.any_eq_true, Bool.or_eq_true, decide_eq_true_eq]
  constructor
  · rintro ⟨t, ht, (h | h) | h⟩
    · exact ⟨t, ht, Or.inl h⟩
    · exact ⟨t, ht, Or.inr (Or.inl h)⟩
    · cases hg : b.genre with
      | none => simp [hg] at h
      | some g =>
        simp only [hg, Option.map_some', Option.getD_some, decide_eq_true_eq] at h
        exact ⟨t, ht, Or.inr (Or.inr ⟨g, rfl, h⟩)⟩
  · rintro ⟨t, ht, h | h | ⟨g, hg, h⟩⟩
    · exact ⟨t, ht, Or.inl (Or.inl h)⟩
    · exact ⟨t, ht, Or.inl (Or.inr h)⟩
    · exact ⟨t, ht, Or.inr (by simp [hg, h])⟩

/-- C3: in the Tier-2 fallback of the search handler the pattern is the
white-space-separated tokens of the trimmed query joined by `|`, compiled with
the flag `i` and with no escaping; for every query whose tokens contain no
regex metacharacter and every store with at most 200 matching records, the
handler returns exactly the records whose title, author or genre contains at
least one token as a case-insensitive substring (any token, not all of
them). -/
theorem fallback_token_or (fold : Char → Char) (E : RegExpEngine)
    (hE : E.LiteralAlternation fold)
    (text : Store → Str → Except StoreError (List Book)) (st : Store) (raw : Str)
    (hq : trim raw ≠ [])
    (hmeta : ∀ t ∈ splitWs (trim raw), ∀ c ∈ t, isMeta c = false)
    (hcap : (st.books.filter (hasToken fold (splitWs (trim raw)))).length ≤ 200)
    (h1 : text st (trim raw) = .ok [] ∨ ∃ e, text st (trim raw) = .error e) :
    tier2 E (bookStore text) st (trim raw) =
      (match E.compile ([ '|' ].intercalate (splitWs (trim raw))) "i".toList with
        | none => .error .syntaxError
        | some rg => .ok ((st.books.filter (matchesAny rg)).take 200)) ∧
    ∃ results,
      searchHandler E (bookStore text) st (.str raw) = (.success 200 (.books results), st) ∧
      ∀ b, b ∈ results ↔ b ∈ st.books ∧ ∃ t ∈ splitWs (trim raw),
        t.map fold <:+: b.title.map fold ∨ t.map fold <:+: b.author.map fold ∨
          ∃ g, b.genre = some g ∧ t.map fold <:+: g.map fold := by
  obtain ⟨rg, hc, hrg⟩ := hE (splitWs (trim raw)) (splitWsAux_ne_nil _ _) hmeta
  have hfilter : st.books.filter (matchesAny rg) =
      st.books.filter (hasToken fold (splitWs (trim raw))) := by
    congr 1
    funext b
    exact matchesAny_eq_hasToken fold _ rg hrg b
  have ht2 : tier2 E (bookStore text) st (trim raw) =
      .ok (st.books.filter (hasToken fold (splitWs (trim raw)))) := by
    unfold tier2 fallbackPattern
    rw [hc]
    simp only [bookStore, Store.regexFind]
    rw [hfilter, List.take_of_length_le hcap]
  refine ⟨?_, st.books.filter (hasToken fold (splitWs (trim raw))), ?_, ?_⟩
  · unfold tier2 fallbackPattern join
    generalize E.compile ([ '|' ].intercalate (splitWs (trim raw))) "i".toList = o
    cases o <;> rfl
  · have h1' : (bookStore text).textSearch st (trim raw) = .ok [] ∨
        ∃ e, (bookStore text).textSearch st (trim raw) = .error e := h1
    rcases h1' with h1' | ⟨e, h1'⟩ <;>
      simp [searchHandler, hq, searchResults, searchTry, h1', ht2]
  · intro b
    rw [List.mem_filter, hasToken_iff]

/-- C3 at the query `DUNE austen` on the store of the two records, with a
Tier 1 that yields nothing: neither record contains both tokens, and both are
returned. -/
theorem fallback_token_or_witness :
    splitWs (trim " DUNE  austen ".toList) = ["DUNE".toList, "austen".toList] ∧
    searchHandler (literalEngine Char.toLower) (bookStore noTextHits) twoBooks
      (.str " DUNE  austen ".toList) = (.success 200 (.books [emma, dune]), twoBooks) ∧
    ∃ results,
      searchHandler (literalEngine Char.toLower) (bookStore noTextHits) twoBooks
        (.str " DUNE  austen ".toList) = (.success 200 (.books results), twoBooks) ∧
      ∀ b, b ∈ results ↔ b ∈ twoBooks.books ∧
        ∃ t ∈ splitWs (trim " DUNE  austen ".toList),
          t.map Char.toLower <:+: b.title.map Char.toLower ∨
          t.map Char.toLower <:+: b.author.map Char.toLower ∨
          ∃ g, b.genre = some g ∧ t.map Char.toLower <:+: g.map Char.toLower :=
  ⟨by decide, by rfl,
    (fallback_token_or Char.toLower (literalEngine Char.toLower)
      (literalEngine_literalAlternation Char.toLower) noTextHits twoBooks
      " DUNE  austen ".toList (by decide) (by decide) (by decide) (Or.inl rfl)).2⟩

end LibraryManagement
